import Mathlib

/-!
Verification of the lazy DICOM object core (`src/core/src/object/mod.rs`).

The Rust module defines `LazyDicomObject` (a map from tags to lazy data
elements, plus a dictionary reference and an owned parser), `LazyDataElement`
(an element marker plus an optional cached decoded value), construction via
`from_iter`, and the lookup operations `element`, `element_by_name`,
`lookup_name` and `pixel_data`.  The bodies of `element` (past the index
lookup) and `pixel_data` are `unimplemented!()`, which panics; this is
modelled by an explicit `panicked` outcome.

Collaborator types that live outside the visible slice (`Tag`, `VR`,
`DicomValue`, `DicomElementMarker`, the dictionary) are modelled from the
spec's data model; the logic under verification is translated from the Rust
source.
-/

set_option autoImplicit false

namespace DicomCore

/-- A DICOM tag: a `(group, element)` pair of 16-bit numbers.  Modelled from
the spec's data model (`data::Tag` is outside the visible slice); no claim
performs arithmetic on the components. -/
structure Tag where
  group : Nat
  element : Nat
deriving DecidableEq

/-- Modelled from the spec: the value representation (VR) is an enumerated
code describing a field's semantic type (date, text, unsigned short,
sequence, unknown, ...).  A representative set of codes suffices: no claim
inspects a particular code beyond equality. -/
inductive VR where
  | DA
  | TM
  | PN
  | US
  | SQ
  | OB
  | UN
deriving DecidableEq

/-- Modelled from the spec: a decoded value is an opaque tagged union (text,
integer, float, binary blob, or nested object) owned by the decoder
collaborator.  Represented by a small tagged union; no claim inspects its
shape. -/
inductive DicomValue where
  | text (s : String)
  | uint (n : Nat)
  | blob (bytes : List Nat)
deriving DecidableEq

/-- Modelled from the spec: a field header (`DicomElementMarker`, produced by
the parser collaborator) is the immutable record
{tag, VR, declared length, source byte position}.  `len` carries the declared
length verbatim as an unsigned 32-bit quantity; `0xFFFFFFFF` is the
undefined-length sentinel. -/
structure DicomElementMarker where
  tag : Tag
  vr : VR
  len : Nat
  pos : Nat
deriving DecidableEq

/-- Error kinds surfaced by this core: `NoSuchDataElement` and
`NoSuchAttributeName` are raised by the source; decode/I-O failures from the
collaborators are carried opaquely (`DecodeError`). -/
inductive Error where
  | NoSuchDataElement
  | NoSuchAttributeName
  | DecodeError (code : Nat)
deriving DecidableEq

/-- Outcome of a fallible Rust call: `ok` and `err` are the two sides of
`Result`, and `panicked` models a `panic!`/`unimplemented!()` unwinding,
which returns no value to the caller. -/
inductive Outcome (α : Type) where
  | ok (a : α)
  | err (e : Error)
  | panicked
deriving DecidableEq

/-- True exactly when the outcome is a returned structured error value. -/
def Outcome.isErr {α : Type} : Outcome α → Bool
  | .err _ => true
  | _ => false

/-- A dictionary entry as consumed by `lookup_name`: the source only reads
its `tag` field (`.map(|e| e.tag)`).  Modelled from the spec's dictionary
collaborator interface `lookup_by_name(name) -> Option<{tag, ...}>`. -/
structure DictEntry where
  tag : Tag
deriving DecidableEq

/-- `LazyDataElement`: an element marker plus the optional cached decoded
value (`value: Option<DicomValue>`). -/
structure LazyDataElement where
  marker : DicomElementMarker
  value : Option DicomValue
deriving DecidableEq

/-- `LazyDataElement::new`: wrap a marker with an empty cache. -/
def LazyDataElement.new (marker : DicomElementMarker) : LazyDataElement :=
  { marker := marker, value := none }

/-- `LazyDataElement::tag`: delegate to the marker. -/
def LazyDataElement.tag (e : LazyDataElement) : Tag :=
  e.marker.tag

/-- `LazyDataElement::vr`: delegate to the marker. -/
def LazyDataElement.vr (e : LazyDataElement) : VR :=
  e.marker.vr

/-- `LazyDataElement::len`: delegate to the marker; returns the declared
length verbatim (possibly the undefined-length sentinel `0xFFFFFFFF`). -/
def LazyDataElement.len (e : LazyDataElement) : Nat :=
  e.marker.len

/-- The effect of assigning `v` through `LazyDataElement::value_mut`, which
hands out `&mut Option<DicomValue>`: the cache field is replaced, the marker
is untouched.  Clearing the cache (`v = none`) is expressible. -/
def LazyDataElement.value_mut_set (e : LazyDataElement) (v : Option DicomValue) : LazyDataElement :=
  { e with value := v }

/-- The entry map of the object (`HashMap<Tag, LazyDataElement>`), modelled
as an association list with distinct keys kept distinct by `insertEntry`. -/
def Entries : Type := List (Tag × LazyDataElement)

/-- `HashMap` lookup: the value stored under `t`, if any. -/
def lookupEntry : List (Tag × LazyDataElement) → Tag → Option LazyDataElement
  | [], _ => none
  | (k, e) :: rest, t => if t = k then some e else lookupEntry rest t

/-- `HashMap` insert: replace the binding of `t` if present, else add it.
Later inserts overwrite earlier ones, as in the Rust `HashMap` the source
collects into. -/
def insertEntry : List (Tag × LazyDataElement) → Tag → LazyDataElement → List (Tag × LazyDataElement)
  | [], t, e => [(t, e)]
  | (k, old) :: rest, t, e =>
    if t = k then (t, e) :: rest else (k, old) :: insertEntry rest t e

/-- Modelled from the spec: the process-wide standard attribute dictionary
(`get_standard_dictionary()`), shared by reference.  Its contents are owned
by the dictionary collaborator; a representative fragment is enough because
no claim depends on the standard dictionary's contents (the name-resolution
claims quantify over the object's dictionary). -/
def get_standard_dictionary : String → Option DictEntry :=
  fun name =>
    if name = "PatientName" then some { tag := { group := 0x0010, element := 0x0010 } }
    else if name = "StudyDate" then some { tag := { group := 0x0008, element := 0x0020 } }
    else none

/-- `LazyDicomObject`: a dictionary reference, exclusive ownership of a
parser bound to a seekable source (the parser is opaque to every visible
code path, so it is carried as an abstract handle), and the tag-indexed
entry map. -/
structure LazyDicomObject where
  dict : String → Option DictEntry
  parser : Nat
  entries : List (Tag × LazyDataElement)

/-- The collection step of `from_iter`:
`iter.into_iter().map(|res| res.map(|e| (e.tag(), LazyDataElement::new(e)))).collect::<Result<HashMap<_, _>>>()`.
Headers are consumed in order; the first error aborts and is returned; each
successful header is inserted under its tag, overwriting any earlier
binding. -/
def collectEntries : List (Tag × LazyDataElement) → List (Except Error DicomElementMarker) → Except Error (List (Tag × LazyDataElement))
  | acc, [] => Except.ok acc
  | _, Except.error e :: _ => Except.error e
  | acc, Except.ok m :: rest =>
    collectEntries (insertEntry acc m.tag (LazyDataElement.new m)) rest

/-- `LazyDicomObject::from_iter`: collect the marker results into the entry
map (aborting on the first error), attach the shared standard dictionary and
the owned parser. -/
def from_iter (iter : List (Except Error DicomElementMarker)) (parser : Nat) : Except Error LazyDicomObject :=
  (collectEntries [] iter).map
    (fun entries => { dict := get_standard_dictionary, parser := parser, entries := entries })

/-- `DicomObject::element` for `LazyDicomObject`
(`Self::Element = ()` in the source):
`let mut e = try!(self.entries.get_mut(&tag).ok_or_else(|| Error::NoSuchDataElement));`
followed by `unimplemented!()`.  An absent tag returns the error with the
object untouched; a present tag reaches the `unimplemented!()` panic with
nothing mutated before it. -/
def element (o : LazyDicomObject) (t : Tag) : Outcome Unit × LazyDicomObject :=
  match lookupEntry o.entries t with
  | none => (Outcome.err Error.NoSuchDataElement, o)
  | some _ => (Outcome.panicked, o)

/-- `LazyDicomObject::lookup_name`:
`self.dict.get_by_name(name).ok_or(Error::NoSuchAttributeName).map(|e| e.tag)`. -/
def lookup_name (o : LazyDicomObject) (name : String) : Except Error Tag :=
  match o.dict name with
  | none => Except.error Error.NoSuchAttributeName
  | some e => Except.ok e.tag

/-- `DicomObject::element_by_name` for `LazyDicomObject`:
`let tag = self.lookup_name(name)?; self.element(tag)`. -/
def element_by_name (o : LazyDicomObject) (name : String) : Outcome Unit × LazyDicomObject :=
  match lookup_name o name with
  | Except.error e => (Outcome.err e, o)
  | Except.ok t => element o t

/-- `DicomObject::pixel_data` for `LazyDicomObject`: `unimplemented!()`,
which panics; nothing is mutated and no value or error is returned. -/
def pixel_data (o : LazyDicomObject) : Outcome Unit × LazyDicomObject :=
  (Outcome.panicked, o)

/-- Spec-side description used by the last-write-wins claim: the last header
in the sequence bearing tag `t`, if any. -/
def lastHeaderWith (t : Tag) : List DicomElementMarker → Option DicomElementMarker
  | [] => none
  | m :: rest =>
    match lastHeaderWith t rest with
    | some m' => some m'
    | none => if m.tag = t then some m else none

/-- The first error in a header-result sequence, if any. -/
def firstError : List (Except Error DicomElementMarker) → Option Error
  | [] => none
  | Except.error e :: _ => some e
  | Except.ok _ :: rest => firstError rest

/-- The pure entry-accumulation performed by `collectEntries` on an
error-free sequence: fold the headers into the map, later headers
overwriting earlier bindings of the same tag. -/
def insertAll : List (Tag × LazyDataElement) → List DicomElementMarker → List (Tag × LazyDataElement)
  | acc, [] => acc
  | acc, m :: rest => insertAll (insertEntry acc m.tag (LazyDataElement.new m)) rest

/-- Concrete header: tag (0008,0020), VR DA, declared length 8, position 0
(the spec's Scenario A). -/
def markerA : DicomElementMarker :=
  { tag := { group := 0x0008, element := 0x0020 }, vr := VR.DA, len := 8, pos := 0 }

/-- Concrete header: tag (0010,0010), VR PN, declared length 4, position 12
(the spec's Scenario A). -/
def markerB : DicomElementMarker :=
  { tag := { group := 0x0010, element := 0x0010 }, vr := VR.PN, len := 4, pos := 12 }

/-- Concrete header with the undefined-length sentinel and a sequence VR
(the spec's Scenario C). -/
def markerSQ : DicomElementMarker :=
  { tag := { group := 0x0008, element := 0x1115 }, vr := VR.SQ, len := 0xFFFFFFFF, pos := 50 }

/-- A tag absent from `objA`'s index ((0008,0030), the spec's Scenario A
miss). -/
def tagAbsent : Tag := { group := 0x0008, element := 0x0030 }

/-- The object `from_iter` builds from the single successful header
`markerA` with parser handle 0. -/
def objA : LazyDicomObject :=
  { dict := get_standard_dictionary
    parser := 0
    entries := [(markerA.tag, LazyDataElement.new markerA)] }

/-- A concrete decoded value. -/
def valueA : DicomValue := DicomValue.text "20180101"

/-- A lazy element whose cache holds `valueA`, written through
`value_mut`. -/
def elemCached : LazyDataElement :=
  (LazyDataElement.new markerA).value_mut_set (some valueA)

/- ------------------------------------------------------------------ -/
/- Helper lemmas                                                       -/
/- ------------------------------------------------------------------ -/

theorem lookupEntry_insertEntry (t t' : Tag) (e : LazyDataElement) :
    ∀ m : List (Tag × LazyDataElement),
    lookupEntry (insertEntry m t e) t' = if t' = t then some e else lookupEntry m t' := by
  intro m
  induction m with
  | nil => simp [insertEntry, lookupEntry]
  | cons p rest ih =>
    obtain ⟨k, old⟩ := p
    by_cases h1 : t = k
    · subst h1
      simp only [insertEntry, if_pos rfl, lookupEntry]
      by_cases h2 : t' = t
      · simp [h2]
      · simp [h2]
    · simp only [insertEntry, if_neg h1, lookupEntry]
      by_cases h2 : t' = k
      · have h3 : t' ≠ t := by
          rw [h2]
          exact fun hh => h1 hh.symm
        have h4 : k ≠ t := fun hh => h1 hh.symm
        simp [h2, h3, h4]
      · simp [h2, ih]

theorem collectEntries_map_ok (hs : List DicomElementMarker) :
    ∀ acc, collectEntries acc (hs.map Except.ok) = Except.ok (insertAll acc hs) := by
  induction hs with
  | nil => intro acc; rfl
  | cons m rest ih =>
    intro acc
    simp only [List.map, collectEntries, insertAll]
    exact ih _

theorem lookupEntry_insertAll (t : Tag) (hs : List DicomElementMarker) :
    ∀ acc, lookupEntry (insertAll acc hs) t =
      match lastHeaderWith t hs with
      | some m => some (LazyDataElement.new m)
      | none => lookupEntry acc t := by
  induction hs with
  | nil => intro acc; rfl
  | cons m rest ih =>
    intro acc
    simp only [insertAll, lastHeaderWith]
    rw [ih]
    cases h : lastHeaderWith t rest with
    | some m' => rfl
    | none =>
      simp only [lookupEntry_insertEntry]
      by_cases h2 : m.tag = t
      · simp [h2]
      · have h3 : t ≠ m.tag := fun hh => h2 hh.symm
        simp [h2, h3]

theorem lastHeaderWith_isSome (t : Tag) (hs : List DicomElementMarker) :
    (lastHeaderWith t hs).isSome = true ↔ t ∈ hs.map DicomElementMarker.tag := by
  induction hs with
  | nil => simp [lastHeaderWith]
  | cons m rest ih =>
    simp only [lastHeaderWith, List.map_cons, List.mem_cons]
    cases h : lastHeaderWith t rest with
    | some m' =>
      simp only [Option.isSome_some, true_iff]
      exact Or.inr (ih.mp (by simp [h]))
    | none =>
      rw [h] at ih
      simp only [Option.isSome_none, Bool.false_eq_true, false_iff] at ih
      by_cases h2 : m.tag = t
      · simp [h2]
      · have h3 : t ≠ m.tag := fun hh => h2 hh.symm
        simp [h2, h3, ih]

theorem collectEntries_first_error (e : Error) :
    ∀ (rs : List (Except Error DicomElementMarker)) (acc : List (Tag × LazyDataElement)),
    firstError rs = some e → collectEntries acc rs = Except.error e := by
  intro rs
  induction rs with
  | nil => intro acc h; exact absurd h (by simp [firstError])
  | cons r rest ih =>
    intro acc h
    cases r with
    | error e' =>
      simp only [firstError, Option.some.injEq] at h
      subst h
      rfl
    | ok m =>
      simp only [firstError] at h
      exact ih _ h

theorem collectEntries_value_none :
    ∀ (rs : List (Except Error DicomElementMarker)) (acc es : List (Tag × LazyDataElement)),
    (∀ t e, lookupEntry acc t = some e → e.value = none) →
    collectEntries acc rs = Except.ok es →
    (∀ t e, lookupEntry es t = some e → e.value = none) := by
  intro rs
  induction rs with
  | nil =>
    intro acc es hacc hc
    simp only [collectEntries, Except.ok.injEq] at hc
    subst hc
    exact hacc
  | cons r rest ih =>
    intro acc es hacc hc
    cases r with
    | error e' => exact absurd hc (by simp [collectEntries])
    | ok m =>
      simp only [collectEntries] at hc
      refine ih _ es ?_ hc
      intro t e hl
      rw [lookupEntry_insertEntry] at hl
      by_cases h2 : t = m.tag
      · rw [if_pos h2] at hl
        cases hl
        rfl
      · rw [if_neg h2] at hl
        exact hacc t e hl

theorem element_state_id (o : LazyDicomObject) (t : Tag) : (element o t).2 = o := by
  unfold element
  cases lookupEntry o.entries t <;> rfl

/- ------------------------------------------------------------------ -/
/- Claims                                                              -/
/- ------------------------------------------------------------------ -/

/-- C1: the claim says `element(tag)` for a present tag with a cached value
returns that value.  On the code, the body of `element` after the index
lookup is `unimplemented!()`: for the concrete object built from the single
header `markerA`, the tag is present in the index, yet the call panics and
returns no value at all — the materialization path does not exist in the
code. -/
theorem C1_element_present_tag_panics :
    from_iter [Except.ok markerA] 0 = Except.ok objA ∧
    lookupEntry objA.entries markerA.tag = some (LazyDataElement.new markerA) ∧
    (element objA markerA.tag).1 = Outcome.panicked ∧
    Outcome.isErr (element objA markerA.tag).1 = false := by
  refine ⟨rfl, by decide, by decide, by decide⟩

/-- C2: `from_iter` on an error-free header sequence succeeds, the key set
of the built object is exactly the set of distinct tags of the sequence, and
the entry stored under a tag is the element built from the last header
bearing that tag (last-write-wins). -/
theorem C2_from_iter_last_write_wins (hs : List DicomElementMarker) (p : Nat) :
    ∃ o : LazyDicomObject,
      from_iter (hs.map Except.ok) p = Except.ok o ∧
      (∀ t : Tag, (lookupEntry o.entries t).isSome = true ↔ t ∈ hs.map DicomElementMarker.tag) ∧
      (∀ t : Tag, lookupEntry o.entries t = (lastHeaderWith t hs).map LazyDataElement.new) := by
  refine ⟨{ dict := get_standard_dictionary, parser := p, entries := insertAll [] hs }, ?_, ?_, ?_⟩
  · unfold from_iter
    rw [collectEntries_map_ok]
    rfl
  · intro t
    have h := lookupEntry_insertAll t hs []
    rw [h]
    rw [← lastHeaderWith_isSome t hs]
    cases lastHeaderWith t hs <;> simp [lookupEntry]
  · intro t
    have h := lookupEntry_insertAll t hs []
    rw [h]
    cases lastHeaderWith t hs <;> rfl

/-- C3: if the header sequence contains an error, `from_iter` returns the
first such error and no object is built. -/
theorem C3_from_iter_first_error (rs : List (Except Error DicomElementMarker)) (p : Nat)
    (e : Error) (h : firstError rs = some e) :
    from_iter rs p = Except.error e := by
  unfold from_iter
  rw [collectEntries_first_error e rs [] h]
  rfl

/-- Witness for C3 at a concrete input: the sequence
`[ok markerA, error (DecodeError 3), ok markerB]` makes `from_iter` return
`DecodeError 3`. -/
theorem C3_witness :
    from_iter [Except.ok markerA, Except.error (Error.DecodeError 3), Except.ok markerB] 0 =
      Except.error (Error.DecodeError 3) :=
  C3_from_iter_first_error
    [Except.ok markerA, Except.error (Error.DecodeError 3), Except.ok markerB] 0
    (Error.DecodeError 3) rfl

/-- C4: `element` on a tag absent from the index fails with
`NoSuchDataElement` and returns the object unchanged (so every entry's
cached state is unchanged). -/
theorem C4_element_absent_tag (o : LazyDicomObject) (t : Tag)
    (h : lookupEntry o.entries t = none) :
    element o t = (Outcome.err Error.NoSuchDataElement, o) := by
  unfold element
  rw [h]

/-- Witness for C4 at a concrete input: `(0008,0030)` is absent from
`objA`. -/
theorem C4_witness :
    element objA tagAbsent = (Outcome.err Error.NoSuchDataElement, objA) :=
  C4_element_absent_tag objA tagAbsent (by decide)

/-- C5: when the dictionary maps `name` to a tag `t`, `element_by_name name`
returns exactly `element t`: name resolution delegates to `element`. -/
theorem C5_element_by_name_delegates (o : LazyDicomObject) (name : String) (t : Tag)
    (h : o.dict name = some { tag := t }) :
    element_by_name o name = element o t := by
  unfold element_by_name lookup_name
  rw [h]

/-- Witness for C5 at a concrete input: the standard dictionary maps
"StudyDate" to `markerA`'s tag. -/
theorem C5_witness :
    element_by_name objA "StudyDate" = element objA markerA.tag :=
  C5_element_by_name_delegates objA "StudyDate" markerA.tag (by decide)

/-- C6: when the dictionary does not resolve `name`, `element_by_name`
fails with `NoSuchAttributeName` and returns the object unchanged, without
reaching `element`. -/
theorem C6_unknown_name (o : LazyDicomObject) (name : String)
    (h : o.dict name = none) :
    element_by_name o name = (Outcome.err Error.NoSuchAttributeName, o) := by
  unfold element_by_name lookup_name
  rw [h]

/-- Witness for C6 at a concrete input: "AccessionNumber" is not in the
modelled standard dictionary fragment. -/
theorem C6_witness :
    element_by_name objA "AccessionNumber" = (Outcome.err Error.NoSuchAttributeName, objA) :=
  C6_unknown_name objA "AccessionNumber" (by decide)

/-- C7 counterexample: the public `value_mut` accessor can clear an already
cached value — `elemCached` holds `valueA`, and writing `none` through
`value_mut` evicts it, so the cached value is not immutable and the
uncached-to-cached transition is not one-directional. -/
theorem C7_counterexample :
    elemCached.value = some valueA ∧
    (elemCached.value_mut_set none).value = none := by
  exact ⟨rfl, rfl⟩

/-- C7 amended: the object's own operations (`element`, `element_by_name`,
`pixel_data`) never change any entry's cached state; the cache changes only
through explicit writes via `value_mut`, which can set or clear it at will
while leaving the marker untouched. -/
theorem C7_amended_cache_stability (o : LazyDicomObject) (t : Tag) (name : String)
    (e : LazyDataElement) (v : Option DicomValue) :
    (element o t).2 = o ∧
    (element_by_name o name).2 = o ∧
    (pixel_data o).2 = o ∧
    (e.value_mut_set v).value = v ∧
    (e.value_mut_set v).marker = e.marker := by
  refine ⟨element_state_id o t, ?_, rfl, rfl, rfl⟩
  unfold element_by_name
  cases lookup_name o name with
  | error e' => rfl
  | ok t' => exact element_state_id o t'

/-- C8: immediately after a successful `from_iter`, every entry of the
object is unmaterialized: its cached value is `none`. -/
theorem C8_zero_materialized (rs : List (Except Error DicomElementMarker)) (p : Nat)
    (o : LazyDicomObject) (t : Tag) (e : LazyDataElement)
    (h1 : from_iter rs p = Except.ok o)
    (h2 : lookupEntry o.entries t = some e) :
    e.value = none := by
  unfold from_iter at h1
  cases hc : collectEntries [] rs with
  | error err =>
    rw [hc] at h1
    exact absurd h1 (by simp [Except.map])
  | ok es =>
    rw [hc] at h1
    simp only [Except.map, Except.ok.injEq] at h1
    have hent : o.entries = es := by rw [← h1]
    rw [hent] at h2
    refine collectEntries_value_none rs [] es ?_ hc t e h2
    intro t' e' h'
    simp [lookupEntry] at h'

/-- Witness for C8 at a concrete input: the single entry of the object built
from `markerA` has an empty cache. -/
theorem C8_witness : (LazyDataElement.new markerA).value = none :=
  C8_zero_materialized [Except.ok markerA] 0 objA markerA.tag
    (LazyDataElement.new markerA) rfl (by decide)

/-- C9 counterexample: `pixel_data` is `unimplemented!()`: it panics, so its
outcome is neither a success nor a structured error value returned to the
caller, contrary to the claim that it fails with a structured error
value. -/
theorem C9_counterexample :
    (pixel_data objA).1 = Outcome.panicked ∧
    Outcome.isErr (pixel_data objA).1 = false ∧
    (pixel_data objA).1 ≠ Outcome.ok () := by
  refine ⟨rfl, rfl, by decide⟩

/-- C9 amended: `pixel_data` never returns an empty or bogus success — it
fails explicitly, but by panicking (`unimplemented!()`) rather than by
returning a structured error value; nothing is mutated. -/
theorem C9_pixel_data_never_succeeds (o : LazyDicomObject) :
    pixel_data o = (Outcome.panicked, o) ∧
    (pixel_data o).1 ≠ Outcome.ok () ∧
    Outcome.isErr (pixel_data o).1 = false := by
  refine ⟨rfl, ?_, rfl⟩
  intro h
  exact Outcome.noConfusion h

/-- C10: writing any value (or `none`) through `value_mut` leaves `tag`,
`vr` and `len` unchanged, `len` returns the marker's declared length
verbatim, and in particular an element with the undefined-length sentinel
reports `0xFFFFFFFF`. -/
theorem C10_value_mut_frame (e : LazyDataElement) (v : Option DicomValue) :
    (e.value_mut_set v).tag = e.tag ∧
    (e.value_mut_set v).vr = e.vr ∧
    (e.value_mut_set v).len = e.len ∧
    e.len = e.marker.len ∧
    (LazyDataElement.new markerSQ).len = 0xFFFFFFFF := by
  exact ⟨rfl, rfl, rfl, rfl, rfl⟩

end DicomCore
